import Mathlib

/-!
Shallow embedding of the x402 payment SDK
(packages/x402-payment-sdk/src/core/payment-processor.ts and
packages/x402-payment-sdk/src/http/payment-plugin.ts).

External collaborators (the x402 helper library, viem's address
normalisation and the remote facilitator) are modelled as explicit
function parameters bundled in `Externals`; the facilitator's settle
capability is modelled as the sequence of outcomes of its successive
calls, indexed by the attempt number.  Side effects that the claims
observe (facilitator calls, retry waits, settlement callbacks, header
writes) are made explicit as returned trace records.
-/

namespace X402

/-- Protocol version constant (payment-processor.ts line 32). -/
def X402_VERSION : Nat := 1

/-- JavaScript String.toUpperCase (ASCII range), as a structurally
computable map over the string's characters. -/
def toUpperStr (s : String) : String := String.mk (s.data.map Char.toUpper)

/-- JavaScript `a || b` on an optional string: the default wins when the
value is absent or empty (the JS falsy cases for strings). -/
def jsOr (o : Option String) (d : String) : String :=
  match o with
  | some s => if s = "" then d else s
  | none => d

/-- Decoded payment proof payload (x402 `PaymentPayload`); the
scheme-specific authorization data is kept opaque. -/
structure PaymentPayload where
  x402Version : Nat
  scheme : String
  network : String
  payload : String
deriving Repr, DecidableEq

/-- Facilitator verification response ({isValid, invalidReason?, payer?}). -/
structure VerifyResponse where
  isValid : Bool
  invalidReason : Option String := none
  payer : Option String := none
deriving Repr, DecidableEq

/-- Payment requirement record built by `createPaymentRequirements`
(payment-processor.ts lines 88-108).  The nested `outputSchema.input`
object is flattened into the `input*` fields; opaque schema blobs are
kept as optional strings. -/
structure PaymentRequirements where
  scheme : String
  network : String
  maxAmountRequired : String
  resource : String
  description : String
  mimeType : String
  payTo : String
  maxTimeoutSeconds : Nat
  asset : String
  inputType : String
  inputMethod : String
  inputDiscoverable : Bool
  inputSchemaExtra : Option String
  outputSchema : Option String
  extra : Option String
deriving Repr, DecidableEq

/-- Verified payment context (decoded proof, matched requirement,
verification result). -/
structure PaymentContext where
  payment : PaymentPayload
  requirements : PaymentRequirements
  verification : VerifyResponse
deriving Repr, DecidableEq

/-- Payment error ({code, message, details?.payer}). -/
structure PaymentError where
  code : String
  message : String
  detailsPayer : Option String := none
deriving Repr, DecidableEq

/-- Result of `verifyPayment`: success carries a context, failure carries
the error and the candidate requirements list. -/
inductive PaymentResult where
  | ok (context : PaymentContext)
  | fail (error : PaymentError) (requirements : List PaymentRequirements)
deriving Repr, DecidableEq

/-- Facilitator settle response ({success, transaction?, network?, payer?}). -/
structure SettleResponse where
  success : Bool
  transaction : Option String := none
  network : Option String := none
  payer : Option String := none
deriving Repr, DecidableEq

/-- Outcome of one facilitator settle call: a returned response or a
thrown transport error. -/
inductive FacSettle where
  | ok (response : SettleResponse)
  | raise (msg : String)
deriving Repr, DecidableEq

/-- SettlementResult ({success, transaction?, network?, payer?, error?}). -/
structure SettlementResult where
  success : Bool
  transaction : Option String := none
  network : Option String := none
  payer : Option String := none
  error : Option String := none
deriving Repr, DecidableEq

/-- AsyncSettlementOptions: {enabled, maxRetries?, retryDelay?}; the
success/error callbacks are observed through the returned traces. -/
structure AsyncCfg where
  enabled : Bool
  maxRetries : Option Nat := none
  retryDelay : Option Nat := none
deriving Repr, DecidableEq

/-- Successful result of the external `processPriceToAtomicAmount`
helper: atomic amount plus asset address and EIP-712 metadata. -/
structure PriceResult where
  maxAmountRequired : String
  assetAddress : String
  assetEip712 : Option String := none
deriving Repr, DecidableEq

/-- PaymentServerConfig: the fields `createPaymentRequirements` reads. -/
structure PaymentServerConfig where
  recipient : String
  network : String
deriving Repr, DecidableEq

/-- PaymentMiddlewareConfig: optional overrides read by
`createPaymentRequirements` plus the plugin's errorMessages table. -/
structure MiddlewareCfg where
  description : Option String := none
  mimeType : Option String := none
  maxTimeoutSeconds : Option Nat := none
  discoverable : Option Bool := none
  inputSchema : Option String := none
  outputSchema : Option String := none
  errMsgPaymentRequired : Option String := none
  errMsgVerificationFailed : Option String := none
  errMsgSettlementFailed : Option String := none
deriving Repr, DecidableEq

/-- Inbound HTTP request: the fields the SDK reads (url, method, headers). -/
structure HttpRequest where
  url : String
  method : String
  headers : List (String × String) := []
deriving Repr, DecidableEq

/-- Response header value.  The base64-encoded JSON payloads written by
the SDK are modelled structurally: `b64PendingSettlement` stands for
base64(JSON {status:"pending_settlement"}), `b64SettleOk` for
base64(JSON {success:true, transaction, network, payer}) and
`b64SettleErr` for base64(JSON {success:false, error}). -/
inductive HeaderValue where
  | text (s : String)
  | b64PendingSettlement
  | b64SettleOk (transaction network payer : Option String)
  | b64SettleErr (error : Option String)
deriving Repr, DecidableEq

/-- Response body.  JSON bodies built by the SDK are modelled
structurally; handler-produced bodies are kept opaque. -/
inductive RespBody where
  | empty
  | raw (s : String)
  | paymentRequired (x402Version : Nat) (error : String)
      (accepts : List PaymentRequirements) (payer : Option (Option String))
  | buildError (x402Version : Nat) (error : String) (code : String)
deriving Repr, DecidableEq

/-- HTTP response: status, headers and body. -/
structure HttpResponse where
  status : Nat
  headers : List (String × HeaderValue) := []
  body : RespBody := .empty
deriving Repr, DecidableEq

/-- Association-list lookup of the first entry with the given key
(models `Headers.get`). -/
def assocGet {α : Type} : List (String × α) → String → Option α
  | [], _ => none
  | (k', v') :: rest, k => if k' = k then some v' else assocGet rest k

/-- Association-list update: replace the entry with the given key, or
append it (models `Headers.set`). -/
def assocSet {α : Type} : List (String × α) → String → α → List (String × α)
  | [], k, v => [(k, v)]
  | (k', v') :: rest, k, v =>
      if k' = k then (k, v) :: rest else (k', v') :: assocSet rest k v

/-- External collaborators consumed by the SDK, as pure capabilities:
`processPrice` is x402's processPriceToAtomicAmount (price, network),
`supportedNetworks` is x402's SupportedEVMNetworks constant,
`getAddr` is viem's getAddress checksum normalisation,
`decode` is exact.evm.decodePayment (throw modelled as `.error`),
`matching` is x402's findMatchingPaymentRequirements,
`facVerify` is the facilitator verify capability (throw as `.error`),
`facSettle` is the facilitator settle capability, giving the outcome of
the k-th settle call made for the payment context at hand. -/
structure Externals where
  processPrice : String → String → Except String PriceResult
  supportedNetworks : List String
  getAddr : String → String
  decode : String → Except String PaymentPayload
  matching : List PaymentRequirements → PaymentPayload → Option PaymentRequirements
  facVerify : PaymentPayload → PaymentRequirements → Except String VerifyResponse
  facSettle : Nat → FacSettle

/-- PaymentProcessor.createPaymentRequirements
(payment-processor.ts lines 52-111): price processing first (failure
gives PRICE_PROCESSING_ERROR), then the supported-network check
(failure gives UNSUPPORTED_NETWORK), then the requirement record. -/
def createPaymentRequirements (ext : Externals) (config : PaymentServerConfig)
    (request : HttpRequest) (price : String) (resource : Option String)
    (additionalConfig : MiddlewareCfg) : Except PaymentError PaymentRequirements :=
  match ext.processPrice price config.network with
  | .error e => .error { code := "PRICE_PROCESSING_ERROR", message := e }
  | .ok priceResult =>
      if config.network ∈ ext.supportedNetworks then
        .ok { scheme := "exact"
              network := config.network
              maxAmountRequired := priceResult.maxAmountRequired
              resource := jsOr resource request.url
              description := additionalConfig.description.getD ""
              mimeType := additionalConfig.mimeType.getD "application/json"
              payTo := ext.getAddr config.recipient
              maxTimeoutSeconds := additionalConfig.maxTimeoutSeconds.getD 300
              asset := ext.getAddr priceResult.assetAddress
              inputType := "http"
              inputMethod := toUpperStr request.method
              inputDiscoverable := additionalConfig.discoverable.getD true
              inputSchemaExtra := additionalConfig.inputSchema
              outputSchema := additionalConfig.outputSchema
              extra := priceResult.assetEip712 }
      else
        .error { code := "UNSUPPORTED_NETWORK"
                 message := "Unsupported network: " ++ config.network }

/-- Facilitator interactions observed during `verifyPayment`:
the payloads handed to requirement matching, the payloads handed to the
facilitator verify capability, and the number of facilitator settle
calls (always zero in verification). -/
structure VerifyTrace where
  matchedWith : List PaymentPayload := []
  verifyCalls : List PaymentPayload := []
  settleCalls : Nat := 0
deriving Repr, DecidableEq

/-- PaymentProcessor.verifyPayment (payment-processor.ts lines 116-190):
decode (failure gives INVALID_PAYMENT), overwrite x402Version with the
constant, match against the singleton requirements list (no match gives
NO_MATCHING_REQUIREMENTS), then delegate to the facilitator verify
capability (throw gives VERIFICATION_ERROR, semantic rejection gives
VERIFICATION_FAILED, success yields the PaymentContext). -/
def verifyPayment (ext : Externals) (paymentData : String)
    (requirements : PaymentRequirements) : PaymentResult × VerifyTrace :=
  match ext.decode paymentData with
  | .error msg =>
      (.fail { code := "INVALID_PAYMENT", message := msg } [requirements], {})
  | .ok decoded =>
      let decodedPayment := { decoded with x402Version := X402_VERSION }
      match ext.matching [requirements] decodedPayment with
      | none =>
          (.fail { code := "NO_MATCHING_REQUIREMENTS"
                   message := "Unable to find matching payment requirements" }
             [requirements],
           { matchedWith := [decodedPayment] })
      | some selectedRequirement =>
          match ext.facVerify decodedPayment selectedRequirement with
          | .error msg =>
              (.fail { code := "VERIFICATION_ERROR", message := msg } [requirements],
               { matchedWith := [decodedPayment], verifyCalls := [decodedPayment] })
          | .ok verification =>
              if !verification.isValid then
                (.fail { code := "VERIFICATION_FAILED"
                         message := jsOr verification.invalidReason
                           "Payment verification failed"
                         detailsPayer := verification.payer } [requirements],
                 { matchedWith := [decodedPayment], verifyCalls := [decodedPayment] })
              else
                (.ok { payment := decodedPayment
                       requirements := selectedRequirement
                       verification := verification },
                 { matchedWith := [decodedPayment], verifyCalls := [decodedPayment] })

/-- PaymentProcessor.settlePayment (payment-processor.ts lines 195-214):
maps one facilitator settle outcome to a SettlementResult; a thrown
error is caught and becomes {success:false, error}. -/
def settlePayment (outcome : FacSettle) : SettlementResult :=
  match outcome with
  | .ok settlement =>
      { success := settlement.success, transaction := settlement.transaction
        network := settlement.network, payer := settlement.payer }
  | .raise msg => { success := false, error := some msg }

/-- Observable behaviour of one run of the background settlement loop:
number of facilitator settle calls, the waits (in ms, in order) inserted
between attempts, and the arguments of the onSettlementSuccess and
onSettlementError callback invocations. -/
structure BgTrace where
  settleCalls : Nat := 0
  waits : List Nat := []
  successCalls : List SettlementResult := []
  errorCalls : List String := []
deriving Repr, DecidableEq

/-- Body of PaymentProcessor.settlePaymentInBackground's for-loop
(payment-processor.ts lines 251-270), one invocation per value of
`attempt`.  A successful attempt fires the success callback and stops;
a failed attempt throws, and the catch fires the error callback and
stops when the attempt is the last one, otherwise waits
retryDelay * attempt and retries. -/
def settleLoop (fac : Nat → FacSettle) (maxRetries retryDelay attempt : Nat) :
    BgTrace :=
  if h1 : attempt ≤ maxRetries then
    let settlementResult := settlePayment (fac attempt)
    if settlementResult.success then
      { settleCalls := 1, successCalls := [settlementResult] }
    else if h2 : attempt = maxRetries then
      { settleCalls := 1
        errorCalls := [jsOr settlementResult.error "Settlement failed"] }
    else
      let rest := settleLoop fac maxRetries retryDelay (attempt + 1)
      { settleCalls := 1 + rest.settleCalls
        waits := retryDelay * attempt :: rest.waits
        successCalls := rest.successCalls
        errorCalls := rest.errorCalls }
  else {}
termination_by maxRetries + 1 - attempt
decreasing_by simp_wf; omega

/-- Effective maxRetries: `asyncSettlement?.maxRetries ?? 3`. -/
def asyncMaxRetries (cfg : Option AsyncCfg) : Nat :=
  match cfg with
  | some a => a.maxRetries.getD 3
  | none => 3

/-- Effective retryDelay: `asyncSettlement?.retryDelay ?? 1000`. -/
def asyncRetryDelay (cfg : Option AsyncCfg) : Nat :=
  match cfg with
  | some a => a.retryDelay.getD 1000
  | none => 1000

/-- Effective enabled flag: `asyncSettlement?.enabled` (undefined is falsy). -/
def asyncEnabled (cfg : Option AsyncCfg) : Bool :=
  match cfg with
  | some a => a.enabled
  | none => false

/-- PaymentProcessor.settlePaymentInBackground
(payment-processor.ts lines 246-271): run the retry loop from attempt 1
with the configured bounds; `fac k` is the outcome of the facilitator
settle call made by attempt k for this context. -/
def settlePaymentInBackground (cfg : Option AsyncCfg) (fac : Nat → FacSettle) :
    BgTrace :=
  settleLoop fac (asyncMaxRetries cfg) (asyncRetryDelay cfg) 1

/-- PaymentProcessor.addSettlementHeaders
(payment-processor.ts lines 276-302): on success set X-Payment-Response
to base64 JSON {success:true, transaction, network, payer}; otherwise
set X-Payment-Error to base64 JSON {success:false, error}. -/
def addSettlementHeaders (response : HttpResponse)
    (settlement : SettlementResult) : HttpResponse :=
  if settlement.success then
    { response with
      headers := assocSet response.headers "X-Payment-Response"
        (.b64SettleOk settlement.transaction settlement.network settlement.payer) }
  else
    { response with
      headers := assocSet response.headers "X-Payment-Error"
        (.b64SettleErr settlement.error) }

/-- Result of `settlePaymentAsync`: the (possibly decorated) response,
the number of synchronous facilitator settle calls made before
returning, and the trace of the background settlement task (empty when
no task was scheduled). -/
structure AsyncOutcome where
  response : HttpResponse
  syncCalls : Nat
  bg : BgTrace
deriving Repr, DecidableEq

/-- PaymentProcessor.settlePaymentAsync
(payment-processor.ts lines 219-241): when async settlement is not
enabled, settle synchronously (one facilitator settle call) and
decorate the response via addSettlementHeaders; when enabled, schedule
the background loop and set the X-Payment-Status pending marker. -/
def settlePaymentAsync (cfg : Option AsyncCfg) (fac : Nat → FacSettle)
    (response : HttpResponse) : AsyncOutcome :=
  if !asyncEnabled cfg then
    let settlementResult := settlePayment (fac 1)
    { response := addSettlementHeaders response settlementResult
      syncCalls := 1, bg := {} }
  else
    { response := { response with
        headers := assocSet response.headers "X-Payment-Status"
          .b64PendingSettlement }
      syncCalls := 0
      bg := settlePaymentInBackground cfg fac }

/-- Outcome handed back by the plugin's settle closure: ok flag plus the
response the handler should send. -/
structure PluginSettleResult where
  ok : Bool
  response : HttpResponse
deriving Repr, DecidableEq

/-- Settlement activity caused by one invocation of the plugin's settle
closure: synchronous facilitator settle calls plus the background trace. -/
structure PluginTrace where
  syncCalls : Nat := 0
  bg : BgTrace := {}
deriving Repr, DecidableEq

/-- The settle closure returned by ensurePayment
(payment-plugin.ts lines 158-216): error-status responses short-circuit
unbilled; otherwise async mode delegates to settlePaymentAsync, and
sync mode makes one settlement call, decorating the response with
X-PAYMENT-RESPONSE only on success, and returns ok in either case (the
catch branches are unreachable because settlePayment never throws). -/
def pluginSettlePayment (cfg : Option AsyncCfg) (fac : Nat → FacSettle)
    (response : HttpResponse) : PluginSettleResult × PluginTrace :=
  if response.status ≥ 400 then
    ({ ok := true, response := response }, {})
  else if asyncEnabled cfg then
    let a := settlePaymentAsync cfg fac response
    ({ ok := true, response := a.response },
     { syncCalls := a.syncCalls, bg := a.bg })
  else
    let settlement := settlePayment (fac 1)
    let response' :=
      if settlement.success then
        { response with
          headers := assocSet response.headers "X-PAYMENT-RESPONSE"
            (.b64SettleOk settlement.transaction settlement.network
              settlement.payer) }
      else response
    ({ ok := true, response := response' }, { syncCalls := 1 })

/-- buildPaymentRequiredResponse (payment-plugin.ts lines 61-78): a 402
JSON response {x402Version, error, accepts, ...additional}; the only
additional field the plugin ever passes is `payer`. -/
def buildPaymentRequiredResponse (error : String)
    (accepts : List PaymentRequirements) (payer : Option (Option String)) :
    HttpResponse :=
  { status := 402
    headers := [("Content-Type", .text "application/json")]
    body := .paymentRequired X402_VERSION error accepts payer }

/-- EnsurePaymentConfig (payment-plugin.ts lines 24-31). -/
structure EnsureCfg where
  payTo : String
  price : String
  network : String
  config : Option MiddlewareCfg := none
  resource : Option String := none
  method : Option String := none
deriving Repr, DecidableEq

/-- Server config the plugin hands to its PaymentProcessor
(payment-plugin.ts lines 84-91): recipient and network are hardcoded at
plugin construction and never overwritten from the per-call config. -/
def pluginProcessorConfig : PaymentServerConfig :=
  { recipient := "", network := "base" }

/-- Result of ensurePayment: a ready-to-send rejection response, or an
admission carrying the verified context (the settle closure the real
code attaches is modelled by `pluginSettlePayment`). -/
inductive EnsureResult where
  | reject (response : HttpResponse)
  | grant (context : PaymentContext)
deriving Repr, DecidableEq

/-- Facilitator activity performed by one ensurePayment call. -/
structure EnsureTrace where
  verifyCalls : List PaymentPayload := []
  settleCalls : Nat := 0
deriving Repr, DecidableEq

/-- ensurePayment (payment-plugin.ts lines 93-224): build the
requirement (failure gives a 500 response with the build error code),
require the X-PAYMENT header (absence gives a 402 payment-required
response before any facilitator call), verify the payment (failure
gives a 402 response carrying the payer detail), and otherwise grant
access with the verified context. -/
def ensurePayment (ext : Externals) (cfg : EnsureCfg) (request : HttpRequest) :
    EnsureResult × EnsureTrace :=
  match createPaymentRequirements ext pluginProcessorConfig request cfg.price
      cfg.resource (cfg.config.getD {}) with
  | .error e =>
      (.reject { status := 500
                 headers := [("Content-Type", .text "application/json")]
                 body := .buildError X402_VERSION e.message e.code }, {})
  | .ok requirements =>
      let errorMessages := cfg.config.getD {}
      match assocGet request.headers "X-PAYMENT" with
      | none =>
          (.reject (buildPaymentRequiredResponse
              (jsOr errorMessages.errMsgPaymentRequired
                "X-PAYMENT header is required")
              [requirements] none), {})
      | some paymentHeader =>
          let vr := verifyPayment ext paymentHeader requirements
          match vr.1 with
          | .fail e _ =>
              (.reject (buildPaymentRequiredResponse
                  (jsOr errorMessages.errMsgVerificationFailed
                    (jsOr (some e.message) "Payment verification failed"))
                  [requirements] (some e.detailsPayer)),
               { verifyCalls := vr.2.verifyCalls })
          | .ok context =>
              (.grant context, { verifyCalls := vr.2.verifyCalls })

/-! ### Association-list helper lemmas -/

theorem assocGet_set_self {α : Type} (hs : List (String × α)) (k : String) (v : α) :
    assocGet (assocSet hs k v) k = some v := by
  induction hs with
  | nil => simp [assocSet, assocGet]
  | cons p rest ih =>
      obtain ⟨k', v'⟩ := p
      by_cases hp : k' = k
      · simp [assocSet, hp, assocGet]
      · simp [assocSet, hp, assocGet, ih]

theorem assocGet_set_ne {α : Type} (hs : List (String × α)) (k k' : String) (v : α)
    (hne : k' ≠ k) : assocGet (assocSet hs k v) k' = assocGet hs k' := by
  induction hs with
  | nil => simp [assocSet, assocGet, Ne.symm hne]
  | cons p rest ih =>
      obtain ⟨q, w⟩ := p
      by_cases hq : q = k
      · subst hq
        simp [assocSet, assocGet, Ne.symm hne]
      · simp [assocSet, hq, assocGet, ih]

/-! ### Background settlement loop lemmas -/

theorem settleLoop_of_gt (fac : Nat → FacSettle) (n d a : Nat) (h : n < a) :
    settleLoop fac n d a = {} := by
  rw [settleLoop.eq_def, dif_neg (by omega : ¬ a ≤ n)]

theorem settleLoop_calls_le (fac : Nat → FacSettle) (n d : Nat) :
    ∀ fuel a, n + 1 ≤ a + fuel → (settleLoop fac n d a).settleCalls ≤ n + 1 - a := by
  intro fuel
  induction fuel with
  | zero =>
      intro a h
      rw [settleLoop_of_gt fac n d a (by omega)]
      simp
  | succ fuel ih =>
      intro a h
      by_cases ha : a ≤ n
      · rw [settleLoop.eq_def, dif_pos ha]
        by_cases hs : (settlePayment (fac a)).success = true
        · simp [hs]
          omega
        · rw [Bool.not_eq_true] at hs
          by_cases h2 : a = n
          · subst h2
            simp [hs]
          · simp [hs, h2]
            have := ih (a + 1) (by omega)
            omega
      · rw [settleLoop_of_gt fac n d a (by omega)]
        simp

theorem settleLoop_firstSuccess (fac : Nat → FacSettle) (n d : Nat) :
    ∀ fuel a k, n + 1 ≤ a + fuel → a ≤ k → k ≤ n →
      (settlePayment (fac k)).success = true →
      (∀ j, a ≤ j → j < k → (settlePayment (fac j)).success = false) →
      settleLoop fac n d a =
        { settleCalls := k + 1 - a
          waits := (List.range' a (k - a)).map (fun j => d * j)
          successCalls := [settlePayment (fac k)]
          errorCalls := [] } := by
  intro fuel
  induction fuel with
  | zero =>
      intro a k h hak hkn _ _
      exact absurd h (by omega)
  | succ fuel ih =>
      intro a k h hak hkn hk hmin
      have ha : a ≤ n := le_trans hak hkn
      rw [settleLoop.eq_def, dif_pos ha]
      by_cases hae : a = k
      · subst hae
        simp [hk, Nat.sub_self]
      · have hlt : a < k := lt_of_le_of_ne hak hae
        have hfa : (settlePayment (fac a)).success = false := hmin a le_rfl hlt
        have hne : a ≠ n := by omega
        simp only [hfa, Bool.false_eq_true, if_false]
        rw [dif_neg hne]
        rw [ih (a + 1) k (by omega) (by omega) hkn hk
              (fun j hj hjk => hmin j (by omega) hjk)]
        have hka : k - a = (k - (a + 1)) + 1 := by omega
        rw [hka, List.range'_succ]
        simp
        omega

theorem settleLoop_allFail (fac : Nat → FacSettle) (n d : Nat) :
    ∀ fuel a, n + 1 ≤ a + fuel → a ≤ n →
      (∀ k, a ≤ k → k ≤ n → (settlePayment (fac k)).success = false) →
      settleLoop fac n d a =
        { settleCalls := n + 1 - a
          waits := (List.range' a (n - a)).map (fun j => d * j)
          successCalls := []
          errorCalls := [jsOr (settlePayment (fac n)).error "Settlement failed"] } := by
  intro fuel
  induction fuel with
  | zero =>
      intro a h ha _
      exact absurd h (by omega)
  | succ fuel ih =>
      intro a h ha hall
      have hfa : (settlePayment (fac a)).success = false := hall a le_rfl ha
      rw [settleLoop.eq_def, dif_pos ha]
      by_cases hae : a = n
      · subst hae
        simp [hfa, Nat.sub_self]
      · simp only [hfa, Bool.false_eq_true, if_false]
        rw [dif_neg hae]
        rw [ih (a + 1) (by omega) (by omega)
              (fun k hk hkn => hall k (by omega) hkn)]
        have hna : n - a = (n - (a + 1)) + 1 := by omega
        rw [hna, List.range'_succ]
        simp
        omega

/-! ### Claim theorems: background settlement (C1, C2, C10) -/

/-- C1: for every payment context handed to the deferred settlement loop
with async settlement enabled and maxRetries = n (n ≥ 1; default 3), the
facilitator settle capability is invoked at most n times, and exactly
one callback fires: when every attempt fails, onSettlementError fires
exactly once (after exactly n attempts) and onSettlementSuccess never
fires; when attempt k is the first successful one, onSettlementSuccess
fires exactly once, onSettlementError never fires, and the loop stops
after exactly k attempts. -/
theorem bg_callbacks_exactly_once (fac : Nat → FacSettle) (n d : Nat) (hn : 1 ≤ n) :
    (settlePaymentInBackground (some { enabled := true, maxRetries := some n, retryDelay := some d }) fac).settleCalls ≤ n ∧
    ((∀ k, 1 ≤ k → k ≤ n → (settlePayment (fac k)).success = false) →
      (settlePaymentInBackground (some { enabled := true, maxRetries := some n, retryDelay := some d }) fac).successCalls.length = 0 ∧
      (settlePaymentInBackground (some { enabled := true, maxRetries := some n, retryDelay := some d }) fac).errorCalls.length = 1 ∧
      (settlePaymentInBackground (some { enabled := true, maxRetries := some n, retryDelay := some d }) fac).settleCalls = n) ∧
    (∀ k, 1 ≤ k → k ≤ n → (settlePayment (fac k)).success = true →
      (∀ j, 1 ≤ j → j < k → (settlePayment (fac j)).success = false) →
      (settlePaymentInBackground (some { enabled := true, maxRetries := some n, retryDelay := some d }) fac).successCalls.length = 1 ∧
      (settlePaymentInBackground (some { enabled := true, maxRetries := some n, retryDelay := some d }) fac).errorCalls.length = 0 ∧
      (settlePaymentInBackground (some { enabled := true, maxRetries := some n, retryDelay := some d }) fac).settleCalls = k) := by
  have hEq : settlePaymentInBackground (some { enabled := true, maxRetries := some n, retryDelay := some d }) fac = settleLoop fac n d 1 := rfl
  refine ⟨?_, ?_, ?_⟩
  · rw [hEq]
    have := settleLoop_calls_le fac n d n 1 (by omega)
    omega
  · intro hall
    rw [hEq, settleLoop_allFail fac n d n 1 (by omega) hn hall]
    exact ⟨rfl, rfl, rfl⟩
  · intro k h1 h2 hk hmin
    rw [hEq, settleLoop_firstSuccess fac n d n 1 k (by omega) h1 h2 hk hmin]
    exact ⟨rfl, rfl, rfl⟩

/-- Facilitator stub that fails on the first two settle calls and
succeeds on every later one. -/
def facFailTwice : Nat → FacSettle := fun k =>
  if k ≤ 2 then .ok { success := false }
  else .ok { success := true, transaction := some "0xabc"
             network := some "base", payer := some "0xpayer" }

/-- Witness for C1 at maxRetries = 3, retryDelay = 1000 and a
facilitator stub that fails twice then succeeds. -/
theorem bg_callbacks_exactly_once_witness :
    1 ≤ 3 ∧
    ((settlePaymentInBackground (some { enabled := true, maxRetries := some 3, retryDelay := some 1000 }) facFailTwice).settleCalls ≤ 3 ∧
    ((∀ k, 1 ≤ k → k ≤ 3 → (settlePayment (facFailTwice k)).success = false) →
      (settlePaymentInBackground (some { enabled := true, maxRetries := some 3, retryDelay := some 1000 }) facFailTwice).successCalls.length = 0 ∧
      (settlePaymentInBackground (some { enabled := true, maxRetries := some 3, retryDelay := some 1000 }) facFailTwice).errorCalls.length = 1 ∧
      (settlePaymentInBackground (some { enabled := true, maxRetries := some 3, retryDelay := some 1000 }) facFailTwice).settleCalls = 3) ∧
    (∀ k, 1 ≤ k → k ≤ 3 → (settlePayment (facFailTwice k)).success = true →
      (∀ j, 1 ≤ j → j < k → (settlePayment (facFailTwice j)).success = false) →
      (settlePaymentInBackground (some { enabled := true, maxRetries := some 3, retryDelay := some 1000 }) facFailTwice).successCalls.length = 1 ∧
      (settlePaymentInBackground (some { enabled := true, maxRetries := some 3, retryDelay := some 1000 }) facFailTwice).errorCalls.length = 0 ∧
      (settlePaymentInBackground (some { enabled := true, maxRetries := some 3, retryDelay := some 1000 }) facFailTwice).settleCalls = k)) :=
  ⟨by decide, bg_callbacks_exactly_once facFailTwice 3 1000 (by decide)⟩

/-- C2: in the deferred settlement loop the wait inserted between failed
attempt k and attempt k+1 is retryDelay * k: the wait list of a run is
exactly [d*1, d*2, ..., d*(settleCalls-1)], so the backoff grows
linearly in the attempt number and no wait follows the final attempt. -/
theorem bg_backoff_linear (fac : Nat → FacSettle) (n d : Nat) :
    (settlePaymentInBackground (some { enabled := true, maxRetries := some n, retryDelay := some d }) fac).waits =
      (List.range' 1 ((settlePaymentInBackground (some { enabled := true, maxRetries := some n, retryDelay := some d }) fac).settleCalls - 1)).map
        (fun j => d * j) := by
  have hEq : settlePaymentInBackground (some { enabled := true, maxRetries := some n, retryDelay := some d }) fac = settleLoop fac n d 1 := rfl
  rw [hEq]
  by_cases hex : ∃ k, (1 ≤ k ∧ k ≤ n) ∧ (settlePayment (fac k)).success = true
  · obtain ⟨⟨ha1, ha2⟩, ha3⟩ := Nat.find_spec hex
    have hmin : ∀ j, 1 ≤ j → j < Nat.find hex →
        (settlePayment (fac j)).success = false := by
      intro j hj1 hjlt
      have hno := Nat.find_min hex hjlt
      have hjn : j ≤ n := by omega
      cases hcs : (settlePayment (fac j)).success
      · rfl
      · exact absurd ⟨⟨hj1, hjn⟩, hcs⟩ hno
    rw [settleLoop_firstSuccess fac n d n 1 (Nat.find hex) (by omega) ha1 ha2 ha3 hmin]
    rfl
  · have hall : ∀ k, 1 ≤ k → k ≤ n → (settlePayment (fac k)).success = false := by
      intro k h1 h2
      cases hcs : (settlePayment (fac k)).success
      · rfl
      · exact absurd ⟨k, ⟨h1, h2⟩, hcs⟩ hex
    by_cases hn : 1 ≤ n
    · rw [settleLoop_allFail fac n d n 1 (by omega) hn hall]
      rfl
    · rw [settleLoop_of_gt fac n d 1 (by omega)]
      rfl

/-- C10: with async settlement enabled and maxRetries explicitly 0, the
background task performs zero settlement attempts and invokes neither
callback, so the exactly-once-callback guarantee needs maxRetries ≥ 1. -/
theorem bg_zero_retries_no_attempts (fac : Nat → FacSettle) (d : Nat) :
    settlePaymentInBackground (some { enabled := true, maxRetries := some 0, retryDelay := some d }) fac =
      { settleCalls := 0, waits := [], successCalls := [], errorCalls := [] } := by
  have hEq : settlePaymentInBackground (some { enabled := true, maxRetries := some 0, retryDelay := some d }) fac = settleLoop fac 0 d 1 := rfl
  rw [hEq, settleLoop_of_gt fac 0 d 1 (by omega)]

/-! ### Claim theorems: verification (C3, C9) and requirement building (C4) -/

/-- C3: when decoding the proof token fails, verifyPayment returns an
INVALID_PAYMENT failure carrying the singleton requirements list, and
no facilitator verify or settle call is made. -/
theorem verify_decode_failure_invalid_payment (ext : Externals) (paymentData : String)
    (requirements : PaymentRequirements) (msg : String)
    (h : ext.decode paymentData = .error msg) :
    verifyPayment ext paymentData requirements =
      (.fail { code := "INVALID_PAYMENT", message := msg, detailsPayer := none }
         [requirements],
       { matchedWith := [], verifyCalls := [], settleCalls := 0 }) := by
  unfold verifyPayment
  rw [h]

/-- Generic requirement fixture for the verification witnesses. -/
def reqBase : PaymentRequirements :=
  { scheme := "exact", network := "base", maxAmountRequired := "10000"
    resource := "http://localhost/api", description := ""
    mimeType := "application/json", payTo := "0xRecipient"
    maxTimeoutSeconds := 300, asset := "0xAsset", inputType := "http"
    inputMethod := "GET", inputDiscoverable := true, inputSchemaExtra := none
    outputSchema := none, extra := none }

/-- Externals fixture whose decode capability always rejects. -/
def extDecodeFail : Externals :=
  { processPrice := fun _ _ => .ok { maxAmountRequired := "10000", assetAddress := "0xAsset" }
    supportedNetworks := ["base-sepolia", "base"]
    getAddr := fun s => s
    decode := fun _ => .error "Invalid payment token"
    matching := fun reqs _ => reqs.head?
    facVerify := fun _ _ => .ok { isValid := true, payer := some "0xpayer" }
    facSettle := fun _ => .ok { success := true } }

/-- Witness for C3 on a concrete malformed token. -/
theorem verify_decode_failure_invalid_payment_witness :
    extDecodeFail.decode "garbage" = .error "Invalid payment token" ∧
    verifyPayment extDecodeFail "garbage" reqBase =
      (.fail { code := "INVALID_PAYMENT", message := "Invalid payment token"
               detailsPayer := none } [reqBase],
       { matchedWith := [], verifyCalls := [], settleCalls := 0 }) :=
  ⟨rfl, verify_decode_failure_invalid_payment extDecodeFail "garbage" reqBase
    "Invalid payment token" rfl⟩

/-- C9: for a successfully decoded proof token, the payload's
x402Version field is overwritten with the constant 1 before requirement
matching and before the facilitator verify call, and the context
carried into settlement holds that overwritten payload. -/
theorem verify_version_overwritten (ext : Externals) (paymentData : String)
    (requirements : PaymentRequirements) (p : PaymentPayload)
    (h : ext.decode paymentData = .ok p) :
    (verifyPayment ext paymentData requirements).2.matchedWith =
      [{ p with x402Version := 1 }] ∧
    (∀ q ∈ (verifyPayment ext paymentData requirements).2.verifyCalls,
      q = { p with x402Version := 1 }) ∧
    (∀ context, (verifyPayment ext paymentData requirements).1 = .ok context →
      context.payment = { p with x402Version := 1 }) := by
  unfold verifyPayment
  rw [h]
  simp only [X402_VERSION]
  cases hm : ext.matching [requirements] { p with x402Version := 1 } with
  | none =>
      dsimp only
      exact ⟨rfl, by simp, by simp⟩
  | some sel =>
      dsimp only
      cases hv : ext.facVerify { p with x402Version := 1 } sel with
      | error msg =>
          dsimp only
          exact ⟨rfl, by simp, by simp⟩
      | ok v =>
          dsimp only
          cases hval : v.isValid with
          | false => exact ⟨by simp [hval], by simp [hval], by simp [hval]⟩
          | true =>
              refine ⟨by simp [hval], by simp [hval], ?_⟩
              intro c hc
              simp [hval] at hc
              rw [← hc]

/-- Decoded payload fixture carrying a non-protocol version number. -/
def payload42 : PaymentPayload :=
  { x402Version := 42, scheme := "exact", network := "base", payload := "authorization" }

/-- Externals fixture whose decode capability returns `payload42`. -/
def extDecodeOk : Externals :=
  { extDecodeFail with decode := fun _ => .ok payload42 }

/-- Witness for C9 on a token decoding to version 42. -/
theorem verify_version_overwritten_witness :
    extDecodeOk.decode "token" = .ok payload42 ∧
    ((verifyPayment extDecodeOk "token" reqBase).2.matchedWith =
        [{ payload42 with x402Version := 1 }] ∧
     (∀ q ∈ (verifyPayment extDecodeOk "token" reqBase).2.verifyCalls,
        q = { payload42 with x402Version := 1 }) ∧
     (∀ context, (verifyPayment extDecodeOk "token" reqBase).1 = .ok context →
        context.payment = { payload42 with x402Version := 1 })) :=
  ⟨rfl, verify_version_overwritten extDecodeOk "token" reqBase payload42 rfl⟩

/-- Externals fixture whose price-processing capability always rejects. -/
def extPriceReject : Externals :=
  { extDecodeFail with processPrice := fun _ _ => .error "Invalid price" }

/-- C4 counterexample: with an unsupported network and a price input
whose processing fails, createPaymentRequirements returns
PRICE_PROCESSING_ERROR, not UNSUPPORTED_NETWORK, because the price is
processed before the supported-network check. -/
theorem unsupported_network_counterexample :
    ¬ ("solana" ∈ extPriceReject.supportedNetworks) ∧
    createPaymentRequirements extPriceReject
        { recipient := "0xRecipient", network := "solana" }
        { url := "http://localhost/api", method := "GET" } "not-a-price" none {} =
      .error { code := "PRICE_PROCESSING_ERROR", message := "Invalid price"
               detailsPayer := none } ∧
    "PRICE_PROCESSING_ERROR" ≠ "UNSUPPORTED_NETWORK" :=
  ⟨by decide, rfl, by decide⟩

/-- C4 (amended): for every configuration whose network is not in the
supported set and every price input whose processing succeeds,
createPaymentRequirements returns an UNSUPPORTED_NETWORK error. -/
theorem unsupported_network_when_price_ok (ext : Externals)
    (config : PaymentServerConfig) (request : HttpRequest) (price : String)
    (resource : Option String) (additionalConfig : MiddlewareCfg) (pr : PriceResult)
    (hp : ext.processPrice price config.network = .ok pr)
    (hn : config.network ∉ ext.supportedNetworks) :
    createPaymentRequirements ext config request price resource additionalConfig =
      .error { code := "UNSUPPORTED_NETWORK"
               message := "Unsupported network: " ++ config.network
               detailsPayer := none } := by
  unfold createPaymentRequirements
  rw [hp]
  dsimp only
  rw [if_neg hn]

/-- Witness for the amended C4 on a concrete unsupported network with a
successfully processed price. -/
theorem unsupported_network_when_price_ok_witness :
    extDecodeFail.processPrice "$0.01" "solana" =
      .ok { maxAmountRequired := "10000", assetAddress := "0xAsset", assetEip712 := none } ∧
    "solana" ∉ extDecodeFail.supportedNetworks ∧
    createPaymentRequirements extDecodeFail
        { recipient := "0xRecipient", network := "solana" }
        { url := "http://localhost/api", method := "GET" } "$0.01" none {} =
      .error { code := "UNSUPPORTED_NETWORK", message := "Unsupported network: solana"
               detailsPayer := none } :=
  ⟨rfl, by decide,
   unsupported_network_when_price_ok extDecodeFail
     { recipient := "0xRecipient", network := "solana" }
     { url := "http://localhost/api", method := "GET" } "$0.01" none {}
     { maxAmountRequired := "10000", assetAddress := "0xAsset", assetEip712 := none }
     rfl (by decide)⟩

/-! ### Claim theorems: HTTP plugin (C5, C6, C7, C8) -/

/-- C5: for every handler response with an error status (>= 400), the
plugin's settle closure short-circuits: it returns ok with the response
unmodified and performs no settlement attempt, neither synchronous nor
background. -/
theorem settle_shortcircuit_error_status (cfg : Option AsyncCfg)
    (fac : Nat → FacSettle) (response : HttpResponse) (h : response.status ≥ 400) :
    pluginSettlePayment cfg fac response =
      ({ ok := true, response := response },
       { syncCalls := 0
         bg := { settleCalls := 0, waits := [], successCalls := [], errorCalls := [] } }) := by
  unfold pluginSettlePayment
  rw [if_pos h]

/-- Facilitator stub whose settle capability always fails. -/
def facAlwaysFail : Nat → FacSettle := fun _ => .ok { success := false }

/-- Handler response fixture with an error status. -/
def resp500 : HttpResponse := { status := 500, headers := [], body := .raw "error" }

/-- Witness for C5: a 500 response short-circuits even with async
settlement enabled and an always-failing facilitator. -/
theorem settle_shortcircuit_error_status_witness :
    resp500.status ≥ 400 ∧
    pluginSettlePayment (some { enabled := true, maxRetries := some 3, retryDelay := some 1000 })
        facAlwaysFail resp500 =
      ({ ok := true, response := resp500 },
       { syncCalls := 0
         bg := { settleCalls := 0, waits := [], successCalls := [], errorCalls := [] } }) :=
  ⟨by decide,
   settle_shortcircuit_error_status
     (some { enabled := true, maxRetries := some 3, retryDelay := some 1000 })
     facAlwaysFail resp500 (by decide)⟩

/-- C6: for every inbound request lacking the X-PAYMENT header, given
that requirement construction succeeded, ensurePayment rejects with a
402 response whose body carries an accepts list of exactly the one
built requirement, and no facilitator verify or settle call is made. -/
theorem ensure_missing_header_402 (ext : Externals) (cfg : EnsureCfg)
    (request : HttpRequest) (req : PaymentRequirements)
    (hb : createPaymentRequirements ext pluginProcessorConfig request cfg.price
        cfg.resource (cfg.config.getD {}) = .ok req)
    (hh : assocGet request.headers "X-PAYMENT" = none) :
    ensurePayment ext cfg request =
      (.reject { status := 402
                 headers := [("Content-Type", .text "application/json")]
                 body := .paymentRequired 1
                   (jsOr (cfg.config.getD {}).errMsgPaymentRequired
                     "X-PAYMENT header is required")
                   [req] none },
       { verifyCalls := [], settleCalls := 0 }) := by
  unfold ensurePayment
  rw [hb]
  dsimp only
  rw [hh]
  rfl

/-- Per-call payment config fixture for the plugin witnesses. -/
def cfgPlugin : EnsureCfg :=
  { payTo := "0xRecipient", price := "$0.01", network := "base" }

/-- Inbound request fixture with no X-PAYMENT header. -/
def requestNoPayment : HttpRequest :=
  { url := "http://localhost/api", method := "get"
    headers := [("Content-Type", "application/json")] }

/-- The requirement `createPaymentRequirements` builds for
`requestNoPayment` under `extDecodeFail` and the plugin's hardcoded
processor config (recipient "", network "base"). -/
def reqBuilt : PaymentRequirements :=
  { scheme := "exact", network := "base", maxAmountRequired := "10000"
    resource := "http://localhost/api", description := ""
    mimeType := "application/json", payTo := "", maxTimeoutSeconds := 300
    asset := "0xAsset", inputType := "http", inputMethod := "GET"
    inputDiscoverable := true, inputSchemaExtra := none, outputSchema := none
    extra := none }

/-- Witness for C6 on a concrete request without the payment header. -/
theorem ensure_missing_header_402_witness :
    createPaymentRequirements extDecodeFail pluginProcessorConfig requestNoPayment
      cfgPlugin.price cfgPlugin.resource (cfgPlugin.config.getD {}) = .ok reqBuilt ∧
    assocGet requestNoPayment.headers "X-PAYMENT" = none ∧
    ensurePayment extDecodeFail cfgPlugin requestNoPayment =
      (.reject { status := 402
                 headers := [("Content-Type", .text "application/json")]
                 body := .paymentRequired 1
                   (jsOr (cfgPlugin.config.getD {}).errMsgPaymentRequired
                     "X-PAYMENT header is required")
                   [reqBuilt] none },
       { verifyCalls := [], settleCalls := 0 }) :=
  ⟨by rfl, rfl,
   ensure_missing_header_402 extDecodeFail cfgPlugin requestNoPayment reqBuilt (by rfl) rfl⟩

/-- C7: with async settlement not enabled, settlePaymentAsync performs
exactly one synchronous settlement attempt (no background task) and
returns the response decorated with the outcome: on success the
X-Payment-Response header carries base64 JSON {success:true,
transaction, network, payer}, on failure the X-Payment-Error header
carries base64 JSON {success:false, error}, and the pending
X-Payment-Status marker is never set in this mode. -/
theorem settle_async_disabled_sync_headers (cfg : Option AsyncCfg)
    (fac : Nat → FacSettle) (response : HttpResponse)
    (h : asyncEnabled cfg = false) :
    (settlePaymentAsync cfg fac response).syncCalls = 1 ∧
    (settlePaymentAsync cfg fac response).bg =
      { settleCalls := 0, waits := [], successCalls := [], errorCalls := [] } ∧
    ((settlePayment (fac 1)).success = true →
      assocGet (settlePaymentAsync cfg fac response).response.headers
          "X-Payment-Response" =
        some (.b64SettleOk (settlePayment (fac 1)).transaction
          (settlePayment (fac 1)).network (settlePayment (fac 1)).payer)) ∧
    ((settlePayment (fac 1)).success = false →
      assocGet (settlePaymentAsync cfg fac response).response.headers
          "X-Payment-Error" =
        some (.b64SettleErr (settlePayment (fac 1)).error)) ∧
    assocGet (settlePaymentAsync cfg fac response).response.headers
        "X-Payment-Status" =
      assocGet response.headers "X-Payment-Status" := by
  have hred : settlePaymentAsync cfg fac response =
      { response := addSettlementHeaders response (settlePayment (fac 1))
        syncCalls := 1, bg := {} } := by
    unfold settlePaymentAsync
    rw [h]
    rfl
  rw [hred]
  refine ⟨rfl, rfl, ?_, ?_, ?_⟩
  · intro hs
    unfold addSettlementHeaders
    rw [if_pos hs]
    exact assocGet_set_self response.headers _ _
  · intro hs
    unfold addSettlementHeaders
    rw [if_neg (by simp [hs])]
    exact assocGet_set_self response.headers _ _
  · unfold addSettlementHeaders
    by_cases hs : (settlePayment (fac 1)).success = true
    · rw [if_pos hs]
      exact assocGet_set_ne response.headers _ "X-Payment-Status" _ (by decide)
    · rw [if_neg hs]
      exact assocGet_set_ne response.headers _ "X-Payment-Status" _ (by decide)

/-- Facilitator stub whose settle capability always succeeds. -/
def facSettleOk : Nat → FacSettle := fun _ =>
  .ok { success := true, transaction := some "0xabc", network := some "base"
        payer := some "0xpayer" }

/-- Handler response fixture with a success status. -/
def resp200 : HttpResponse := { status := 200, headers := [], body := .raw "ok" }

/-- Witness for C7 with async settlement absent and a succeeding
facilitator. -/
theorem settle_async_disabled_sync_headers_witness :
    asyncEnabled none = false ∧
    ((settlePaymentAsync none facSettleOk resp200).syncCalls = 1 ∧
     (settlePaymentAsync none facSettleOk resp200).bg =
       { settleCalls := 0, waits := [], successCalls := [], errorCalls := [] } ∧
     ((settlePayment (facSettleOk 1)).success = true →
       assocGet (settlePaymentAsync none facSettleOk resp200).response.headers
           "X-Payment-Response" =
         some (.b64SettleOk (settlePayment (facSettleOk 1)).transaction
           (settlePayment (facSettleOk 1)).network (settlePayment (facSettleOk 1)).payer)) ∧
     ((settlePayment (facSettleOk 1)).success = false →
       assocGet (settlePaymentAsync none facSettleOk resp200).response.headers
           "X-Payment-Error" =
         some (.b64SettleErr (settlePayment (facSettleOk 1)).error)) ∧
     assocGet (settlePaymentAsync none facSettleOk resp200).response.headers
         "X-Payment-Status" =
       assocGet resp200.headers "X-Payment-Status") :=
  ⟨rfl, settle_async_disabled_sync_headers none facSettleOk resp200 rfl⟩

/-- C8 (code-bug evidence): in the plugin's synchronous mode, a
facilitator settle outcome with success = false is handed back to the
handler as ok = true with the response unmodified, not as a failure
outcome; the closure's failure branch is unreachable because the
processor's settlePayment never throws. -/
theorem plugin_sync_settle_failure_returns_ok :
    (settlePayment (facAlwaysFail 1)).success = false ∧
    pluginSettlePayment none facAlwaysFail resp200 =
      ({ ok := true, response := resp200 },
       { syncCalls := 1
         bg := { settleCalls := 0, waits := [], successCalls := [], errorCalls := [] } }) :=
  ⟨rfl, rfl⟩

end X402
